import Mathlib

/-!
Verification of the pyft4222 device-mode resolution and handle-lifecycle
state machine, shallowly embedded from the sources under
`src/pyft4222/` (`__init__.py`, `handle.py`, `stream.py`, `gpio.py`,
`result.py`, `wrapper/__init__.py`, `wrapper/common.py`,
`wrapper/ftd2xx.py`, `wrapper/gpio.py`, `wrapper/spi/master.py`).

Native driver calls are external: every embedded operation takes the
native outcome (a status code, and where relevant a produced handle) as
an explicit argument.  Mutation of the Python objects' `_handle` fields
is embedded as explicit state passing: each method returns the post-call
state of the object (also when the method raises) together with an
`Except` value holding the returned value or the raised exception.
-/

/-- Raw D2XX / FT4222 handle token (`FtHandle`, an opaque `c_void_p`).
Embedded as a numeric token; only identity matters. -/
def FtHandle := Nat

deriving instance DecidableEq, Repr for FtHandle

instance : OfNat FtHandle n := ⟨(n : Nat)⟩

/-- The D2XX status enum `FtStatus` (wrapper/__init__.py lines 40-62). -/
inductive FtStatus
  | ok
  | invalidHandle
  | deviceNotFound
  | deviceNotOpened
  | ioError
  | insufficientResources
  | invalidParameter
  | invalidBaudRate
  | deviceNotOpenedForErase
  | deviceNotOpenedForWrite
  | failedToWriteDevice
  | eepromReadFailed
  | eepromWriteFailed
  | eepromEraseFailed
  | eepromNotPresent
  | eepromNotProgrammed
  | invalidArgs
  | notSupported
  | otherError
  | deviceListNotReady
deriving DecidableEq, Repr

/-- The LibFT4222 status enum `Ft4222Status` (wrapper/__init__.py lines
88-137); it repeats the D2XX codes and extends them. -/
inductive Ft4222Status
  | ok
  | invalidHandle
  | deviceNotFound
  | deviceNotOpened
  | ioError
  | insufficientResources
  | invalidParameter
  | invalidBaudRate
  | deviceNotOpenedForErase
  | deviceNotOpenedForWrite
  | failedToWriteDevice
  | eepromReadFailed
  | eepromWriteFailed
  | eepromEraseFailed
  | eepromNotPresent
  | eepromNotProgrammed
  | invalidArgs
  | notSupported
  | otherError
  | deviceListNotReady
  | deviceNotSupported
  | clkNotSupported
  | vendorCmdNotSupported
  | isNotSpiMode
  | isNotI2cMode
  | isNotSpiSingleMode
  | isNotSpiMultiMode
  | wrongI2cAddr
  | invalidFunction
  | invalidPointer
  | exceededMaxTransferSize
  | failedToReadDevice
  | i2cNotSupportedInThisMode
  | gpioNotSupportedInThisMode
  | gpioExceededMaxPortnum
  | gpioWriteNotSupported
  | gpioPullupInvalidInInputmode
  | gpioPulldownInvalidInInputmode
  | gpioOpendrainInvalidInOutputmode
  | interruptNotSupported
  | gpioInputNotSupported
  | eventNotSupported
  | funNotSupport
deriving DecidableEq, Repr

/-- Exceptions the embedded code can raise: `Ft4222Exception(status)` and
`FtException(status)` (wrapper/__init__.py), and Python's built-in
`AttributeError`, raised when an attribute lookup fails. -/
inductive PyError
  | ft4222Exception (status : Ft4222Status)
  | ftException (status : FtStatus)
  | attributeError
deriving DecidableEq, Repr

/-- The two-variant result type of `src/pyft4222/result.py`: class `Ok`
stores its payload in field `val`, class `Err` in field `err`.  This is
the type returned by `wrapper/ftd2xx.py` and `wrapper/gpio.py`
(both import it: `from pyft4222.result import Err, Ok, Result`). -/
inductive Result (T : Type) (E : Type)
  | ok (val : T)
  | err (e : E)
deriving DecidableEq, Repr

/-- `Result.unwrap(Ft4222Exception)` (result.py lines 20-21 and 36-47):
the `Ok` variant returns its payload, the `Err` variant raises the
exception built from the wrapped error. -/
def Result.unwrapFt4222 : Result T Ft4222Status → Except PyError T
  | .ok v => .ok v
  | .err e => .error (.ft4222Exception e)

/-- The LEGACY two-variant result type of `src/pyft4222/wrapper/__init__.py`
lines 21-37: class `Ok` has only the fields `tag` and `result`, class
`Err` only `tag` and `err`.  Neither class defines an `unwrap` method.
`wrapper/spi/master.py` line 8 imports THIS type
(`from .. import FtHandle, Result, Ok, Err, ...`) and its `init`
returns values of it. -/
inductive WResult (T : Type) (E : Type)
  | ok (res : T)
  | err (e : E)
deriving DecidableEq, Repr

/-- Attribute lookup of `unwrap` on a legacy wrapper `Ok`/`Err` object
(the call `spi_master.init(...).unwrap(Ft4222Exception)` in
stream.py line 88-95): neither legacy class defines `unwrap`, so the
lookup raises `AttributeError` for both variants before any call can
happen. -/
def WResult.unwrapFt4222 : WResult T Ft4222Status → Except PyError T
  | .ok _ => .error .attributeError
  | .err _ => .error .attributeError

/-- `InterfaceType` (stream.py lines 29-56). -/
inductive InterfaceType
  | dataStream
  | gpio
  | spiMaster
deriving DecidableEq, Repr

/-- State of a Stream-Mode handle object (`ProtocolStream`, `GpioStream`,
`SpiStream` in stream.py; all carry `GenericHandle`'s nullable `_handle`
field, handle.py line 48). -/
structure StreamHandle where
  tag : InterfaceType
  handle : Option FtHandle
deriving DecidableEq, Repr

/-- State of a `GenericProtocolHandle` object (handle.py lines 297-309):
its own nullable `_handle` plus the current state of the stream-mode
object it keeps in `_stream_handle`. -/
structure ProtocolHandle where
  handle : Option FtHandle
  stream_handle : StreamHandle
deriving DecidableEq, Repr

/-- `close_handle` (wrapper/ftd2xx.py lines 406-423): raises
`FtException(status)` unless the native status is one of OK,
DEVICE_NOT_OPENED, INVALID_HANDLE, DEVICE_NOT_FOUND. -/
def close_handle (status : FtStatus) : Except PyError Unit :=
  if status = .ok ∨ status = .deviceNotOpened ∨ status = .invalidHandle
      ∨ status = .deviceNotFound then
    .ok ()
  else
    .error (.ftException status)

/-- `reset_device` (wrapper/ftd2xx.py lines 509-526): raises
`FtException(status)` unless the native status is one of OK,
INVALID_HANDLE, DEVICE_NOT_FOUND, DEVICE_NOT_OPENED. -/
def d2xx_reset_device (status : FtStatus) : Except PyError Unit :=
  if status = .ok ∨ status = .invalidHandle ∨ status = .deviceNotFound
      ∨ status = .deviceNotOpened then
    .ok ()
  else
    .error (.ftException status)

/-- `chip_reset` (wrapper/common.py lines 293-308): raises
`Ft4222Exception(status)` unless the native status is OK. -/
def common_chip_reset (status : Ft4222Status) : Except PyError Unit :=
  if status = .ok then .ok () else .error (.ft4222Exception status)

/-- `uninitialize` in wrapper/common.py lines 107-123: on native success
it returns the same token re-viewed as a plain `FtHandle`
(`return FtHandle(ft_handle)`); on any other native status it raises
`Ft4222Exception(status)`. -/
def common_uninit (h : FtHandle) (status : Ft4222Status) :
    Except PyError FtHandle :=
  if status = .ok then .ok h else .error (.ft4222Exception status)

/-- GPIO pin direction (wrapper/gpio.py lines 14-16). -/
inductive Direction
  | output
  | input
deriving DecidableEq, Repr

/-- `_DEFAULT_GPIO_DIRS` (pyft4222/__init__.py lines 18-23): all four
pins set to input. -/
def DEFAULT_GPIO_DIRS : Direction × Direction × Direction × Direction :=
  (.input, .input, .input, .input)

/-- `gpio.init` (wrapper/gpio.py lines 63-82): returns `Ok(GpioHandle(h))`
on native success (the same token), `Err(status)` otherwise.  The pin
directions are forwarded to the native call and do not influence the
host-side control flow. -/
def gpio_init (h : FtHandle)
    (_dirs : Direction × Direction × Direction × Direction)
    (status : Ft4222Status) : Result FtHandle Ft4222Status :=
  if status = .ok then .ok h else .err status

/-- `spi_master.init` (wrapper/spi/master.py lines 151-187), single-line
branch: returns `Ok(SpiMasterSingleHandle(h))` on native success,
`Err(status)` otherwise — values of the LEGACY wrapper result type
(`WResult`).  The clock/polarity/phase/sso parameters are forwarded to
the native call and do not influence the host-side control flow. -/
def spi_master_init (h : FtHandle) (status : Ft4222Status) :
    WResult FtHandle Ft4222Status :=
  if status = .ok then .ok h else .err status

/-- `GenericHandle.close` (handle.py lines 69-81): when `_handle` is
populated call `close_handle` and, if it did not raise, empty the field;
when already empty, do nothing. -/
def StreamHandle.close (s : StreamHandle) (nativeStatus : FtStatus) :
    StreamHandle × Except PyError Unit :=
  match s.handle with
  | some _ =>
    match close_handle nativeStatus with
    | .ok _ => ({ s with handle := none }, .ok ())
    | .error e => (s, .error e)
  | none => (s, .ok ())

/-- `GenericHandle.set_clock` (handle.py lines 82-96), representative of
the guarded pass-through accessors: on an empty `_handle` raise
`Ft4222Exception(DEVICE_NOT_OPENED)`, otherwise forward to the native
call (`wrapper/common.py set_clock` raises on a non-OK status). -/
def StreamHandle.set_clock (s : StreamHandle) (nativeStatus : Ft4222Status) :
    StreamHandle × Except PyError Unit :=
  match s.handle with
  | none => (s, .error (.ft4222Exception .deviceNotOpened))
  | some _ =>
    if nativeStatus = .ok then (s, .ok ())
    else (s, .error (.ft4222Exception nativeStatus))

/-- `GenericHandle.reset_device` (handle.py lines 240-256): on an empty
`_handle` raise DEVICE_NOT_OPENED; otherwise call the native reset and
then `self.close()`. -/
def StreamHandle.reset_device (s : StreamHandle)
    (resetStatus closeStatus : FtStatus) :
    StreamHandle × Except PyError Unit :=
  match s.handle with
  | none => (s, .error (.ft4222Exception .deviceNotOpened))
  | some _ =>
    match d2xx_reset_device resetStatus with
    | .error e => (s, .error e)
    | .ok _ => StreamHandle.close s closeStatus

/-- `GenericHandle.chip_reset` (handle.py lines 274-290): same shape as
`reset_device`, with the LibFT4222 native reset. -/
def StreamHandle.chip_reset (s : StreamHandle)
    (resetStatus : Ft4222Status) (closeStatus : FtStatus) :
    StreamHandle × Except PyError Unit :=
  match s.handle with
  | none => (s, .error (.ft4222Exception .deviceNotOpened))
  | some _ =>
    match common_chip_reset resetStatus with
    | .error e => (s, .error e)
    | .ok _ => StreamHandle.close s closeStatus

/-- `GpioStream.init_gpio` (stream.py lines 262-280): on an empty
`_handle` raise `Ft4222Exception(INVALID_HANDLE)`; otherwise call
`gpio.init` and `unwrap` its result (raising the mapped
`Ft4222Exception` on `Err`); only then set `self._handle = None` and
build `Gpio(result, self)`, whose `_stream_handle` is this (now
emptied) stream object. -/
def init_gpio (s : StreamHandle) (nativeStatus : Ft4222Status) :
    StreamHandle × Except PyError ProtocolHandle :=
  match s.handle with
  | none => (s, .error (.ft4222Exception .invalidHandle))
  | some h =>
    match Result.unwrapFt4222 (gpio_init h DEFAULT_GPIO_DIRS nativeStatus) with
    | .error e => (s, .error e)
    | .ok r =>
      let s1 := { s with handle := none }
      (s1, .ok { handle := some r, stream_handle := s1 })

/-- `ProtocolStream.init_single_spi_master` (stream.py lines 64-98, same
body in `SpiStream`, lines 288-322): on an empty `_handle` raise
`Ft4222Exception(INVALID_HANDLE)`; otherwise call `spi_master.init` and
invoke `.unwrap(Ft4222Exception)` on its result.  `spi_master.init`
returns the LEGACY wrapper result type, which has no `unwrap`, so the
lookup raises `AttributeError` for every native outcome, before
`self._handle = None` is reached. -/
def init_single_spi_master (s : StreamHandle) (nativeStatus : Ft4222Status) :
    StreamHandle × Except PyError ProtocolHandle :=
  match s.handle with
  | none => (s, .error (.ft4222Exception .invalidHandle))
  | some h =>
    match WResult.unwrapFt4222 (spi_master_init h nativeStatus) with
    | .error e => (s, .error e)
    | .ok r =>
      let s1 := { s with handle := none }
      (s1, .ok { handle := some r, stream_handle := s1 })

/-- `GenericProtocolHandle.uninitialize` (handle.py lines 334-355): on an
empty `_handle` raise `Ft4222Exception(DEVICE_NOT_OPENED, "Handle is
already uninitialized or invalid!")`; otherwise call the native
uninitialize (which raises on failure, leaving all fields untouched),
then store the recovered raw handle into `self._stream_handle._handle`,
empty `self._handle`, and return `self._stream_handle` — the very
stream-mode object this capability was created from, re-populated. -/
def ProtocolHandle.uninit (c : ProtocolHandle) (nativeStatus : Ft4222Status) :
    ProtocolHandle × Except PyError StreamHandle :=
  match c.handle with
  | none => (c, .error (.ft4222Exception .deviceNotOpened))
  | some h =>
    match common_uninit h nativeStatus with
    | .error e => (c, .error e)
    | .ok nh =>
      let s1 := { c.stream_handle with handle := some nh }
      ({ handle := none, stream_handle := s1 }, .ok s1)

/-- `GenericProtocolHandle.close` (handle.py lines 322-332):
`self.uninitialize().close()` — delegate to `uninitialize` (raising
DEVICE_NOT_OPENED when `_handle` is already empty) and close the
returned stream-mode object. -/
def ProtocolHandle.close (c : ProtocolHandle)
    (uninitStatus : Ft4222Status) (closeStatus : FtStatus) :
    ProtocolHandle × Except PyError Unit :=
  match ProtocolHandle.uninit c uninitStatus with
  | (c1, .error e) => (c1, .error e)
  | (c1, .ok s) =>
    let (s2, r) := StreamHandle.close s closeStatus
    ({ c1 with stream_handle := s2 }, r)

/-- `Gpio.read` (gpio.py lines 18-35), representative protocol
operation: on an empty `_handle` raise
`Ft4222Exception(DEVICE_NOT_OPENED, "GPIO has been uninitialized!")`;
otherwise forward to the native read (wrapper/gpio.py `read` raises the
mapped exception on a non-OK status, returns the pin state on OK). -/
def Gpio.read (c : ProtocolHandle) (nativeStatus : Ft4222Status)
    (pinState : Bool) : ProtocolHandle × Except PyError Bool :=
  match c.handle with
  | none => (c, .error (.ft4222Exception .deviceNotOpened))
  | some _ =>
    if nativeStatus = .ok then (c, .ok pinState)
    else (c, .error (.ft4222Exception nativeStatus))

/-- The D2XX `DeviceType` enum (wrapper/ftd2xx.py lines 103-122). -/
inductive DeviceType
  | devBm
  | devAm
  | dev100ax
  | devUnknown
  | dev2232c
  | dev232r
  | dev2232h
  | dev4232h
  | dev232h
  | devXSeries
  | dev4222h0
  | dev4222h12
  | dev4222h3
  | dev4222Prog
  | dev900
  | dev930
  | devUmftpd3a
deriving DecidableEq, Repr

/-- `ShortDeviceInfo` (wrapper/ftd2xx.py lines 179-189). -/
structure ShortDeviceInfo where
  dev_type : DeviceType
  dev_idx : Nat
  serial_number : String
  description : String
deriving DecidableEq, Repr

/-- The values of `_MODE_MAP` (pyft4222/__init__.py lines 45-65): the
three Stream-Mode classes, or the `_disambiguate_modes` procedure. -/
inductive HandleCtor
  | protocolStream
  | gpioStream
  | spiStream
  | disambiguate
deriving DecidableEq, Repr

/-- The union `Ft4222Handle` (pyft4222/__init__.py line 52): one of the
three Stream-Mode handle classes, wrapping a raw handle. -/
inductive Ft4222Handle
  | protocolStream (h : FtHandle)
  | gpioStream (h : FtHandle)
  | spiStream (h : FtHandle)
deriving DecidableEq, Repr

/-- `FtError` (pyft4222/__init__.py lines 68-72). -/
inductive FtError
  | invalidMode
  | invalidIdx
  | invalidHandle
  | unknownFailure
deriving DecidableEq, Repr

/-- `_MODE_MAP` (pyft4222/__init__.py lines 54-65), the static
(description, device type) resolution table, as a lookup function
(`dict.get` returns `None` for a missing key). -/
def MODE_MAP (key : String × DeviceType) : Option HandleCtor :=
  if key = ("FT4222 A", .dev4222h0) then some .protocolStream
  else if key = ("FT4222 B", .dev4222h0) then some .gpioStream
  else if key = ("FT4222 A", .dev4222h12) then some .spiStream
  else if key = ("FT4222 B", .dev4222h12) then some .spiStream
  else if key = ("FT4222 C", .dev4222h12) then some .spiStream
  else if key = ("FT4222 D", .dev4222h12) then some .disambiguate
  else if key = ("FT4222", .dev4222h3) then some .protocolStream
  else none

/-- The `isinstance(result, Ok)` checks in pyft4222/__init__.py
(lines 39, 158, 176, 192): `Ok` there is `koda.Ok` (line 8,
`from koda import Err, Ok, Result`), while the checked value is
produced by `wrapper.gpio.init` or `wrapper.ftd2xx.open_by_*`, whose
modules import `Ok`/`Err` from `pyft4222.result` (wrapper/gpio.py
line 5, wrapper/ftd2xx.py line 16).  The two `Ok` classes are
unrelated, so the `isinstance` test is `False` for both variants. -/
def isinstance_koda_ok : Result T E → Bool
  | .ok _ => false
  | .err _ => false

/-- The test `dev_details is not None` (pyft4222/__init__.py line 85):
`wrapper.ftd2xx.get_device_info` returns an `Ok` or `Err` object of
`pyft4222.result` (wrapper/ftd2xx.py lines 426-457), never `None`, so
the test is `True` for both variants. -/
def result_is_not_none : Result ShortDeviceInfo FtStatus → Bool
  | .ok _ => true
  | .err _ => true

/-- The attribute lookup `dev_details.description`
(pyft4222/__init__.py line 86): `dev_details` is an `Ok`/`Err` object of
`pyft4222.result` (fields `val` resp. `err` only, result.py lines
10-49), not the `ShortDeviceInfo` payload, so the lookup raises
`AttributeError` for both variants. -/
def result_attr_description : Result ShortDeviceInfo FtStatus →
    Except PyError String
  | .ok _ => .error .attributeError
  | .err _ => .error .attributeError

/-- The attribute lookup `dev_details.dev_type` (pyft4222/__init__.py
line 86), failing for the same reason as `result_attr_description`. -/
def result_attr_dev_type : Result ShortDeviceInfo FtStatus →
    Except PyError DeviceType
  | .ok _ => .error .attributeError
  | .err _ => .error .attributeError

/-- `_disambiguate_modes` (pyft4222/__init__.py lines 26-42): call
`wgpio.init(handle, _DEFAULT_GPIO_DIRS)`; if `isinstance(result, Ok)`
then `return GpioStream(uninitialize(result.val))` (the wrapper
uninitialize raises on failure), else `return SpiStream(handle)`.
Arguments: the raw handle, the native GPIO-init status and the native
uninitialize status.  The second component of the value records whether
the native uninitialize was called. -/
def disambiguate_modes (h : FtHandle) (probeStatus uninitStatus : Ft4222Status) :
    Except PyError Ft4222Handle × Bool :=
  let r := gpio_init h DEFAULT_GPIO_DIRS probeStatus
  if isinstance_koda_ok r then
    match r with
    | .ok gh =>
      match common_uninit gh uninitStatus with
      | .ok nh => (.ok (.gpioStream nh), true)
      | .error e => (.error e, true)
    | .err _ => (.error .attributeError, false)
  else
    (.ok (.spiStream h), false)

/-- `handle_type(ft_handle)` (pyft4222/__init__.py line 88): instantiate
the mapped Stream-Mode class with the raw handle, or run
`_disambiguate_modes` on it. -/
def apply_ctor (ctor : HandleCtor) (h : FtHandle)
    (probeStatus uninitStatus : Ft4222Status) : Except PyError Ft4222Handle :=
  match ctor with
  | .protocolStream => .ok (.protocolStream h)
  | .gpioStream => .ok (.gpioStream h)
  | .spiStream => .ok (.spiStream h)
  | .disambiguate => (disambiguate_modes h probeStatus uninitStatus).1

/-- `_get_mode_handle` (pyft4222/__init__.py lines 75-92): take the value
returned by `wrapper.ftd2xx.get_device_info` (a `Result`, passed here as
`dev_details`), test `dev_details is not None`, look the key
`(dev_details.description, dev_details.dev_type)` up in `_MODE_MAP`,
and either instantiate the entry or return `Err(INVALID_MODE)`; the
`None` branch returns `Err(INVALID_HANDLE)`.  `probeStatus` and
`uninitStatus` are the native outcomes used by the disambiguation
entry. -/
def get_mode_handle (dev_details : Result ShortDeviceInfo FtStatus)
    (h : FtHandle) (probeStatus uninitStatus : Ft4222Status) :
    Except PyError (Result Ft4222Handle FtError) :=
  if result_is_not_none dev_details then
    match result_attr_description dev_details with
    | .error e => .error e
    | .ok descr =>
      match result_attr_dev_type dev_details with
      | .error e => .error e
      | .ok dtype =>
        match MODE_MAP (descr, dtype) with
        | some ctor =>
          match apply_ctor ctor h probeStatus uninitStatus with
          | .ok hnd => .ok (.ok hnd)
          | .error e => .error e
        | none => .ok (.err .invalidMode)
  else
    .ok (.err .invalidHandle)

/-- `_validate_dev_idx` (pyft4222/__init__.py lines 95-104):
`0 <= dev_idx < 2**31`. -/
def validate_dev_idx (dev_idx : Int) : Bool :=
  if 0 ≤ dev_idx ∧ dev_idx < 2 ^ 31 then true else false

/-- `open_by_idx` (pyft4222/__init__.py lines 140-163): validate the
index (returning `Err(INVALID_IDX)` without touching the native layer
when invalid); otherwise call the native `ftd.open_by_idx` (its outcome
is the `nativeOpen` argument) and test `isinstance(ft_handle, Ok)`
against `koda.Ok` — false for the `pyft4222.result` value actually
returned, taking the `Err(INVALID_HANDLE)` branch; the `True` branch
would run `_get_mode_handle(ft_handle.val)`.  The second component of
the value records whether the native open was called. -/
def open_by_idx (dev_idx : Int) (nativeOpen : Result FtHandle FtStatus)
    (dev_details : Result ShortDeviceInfo FtStatus)
    (probeStatus uninitStatus : Ft4222Status) :
    Except PyError (Result Ft4222Handle FtError) × Bool :=
  if validate_dev_idx dev_idx then
    let ft_handle := nativeOpen
    if isinstance_koda_ok ft_handle then
      match ft_handle with
      | .ok h => (get_mode_handle dev_details h probeStatus uninitStatus, true)
      | .err _ => (.error .attributeError, true)
    else
      (.ok (.err .invalidHandle), true)
  else
    (.ok (.err .invalidIdx), false)

/-- Abstract ownership view for one physical connection after mode
resolution: whether the single stream-mode object's `_handle` is
populated, and, for every protocol-handle object created from it so far
(in creation order), whether that object's `_handle` is populated. -/
structure World where
  stream : Bool
  caps : List Bool
deriving DecidableEq, Repr

/-- One transition of the handle-lifecycle state machine, projected onto
the `_handle` fields.  Each rule mirrors one embedded method above:

* `initOk` — `init_gpio` on a populated stream with native success:
  `self._handle = None`, a new protocol handle is created populated.
* `initFail` — any `init_*` call that raises (empty-handle guard,
  native failure, or the `unwrap` AttributeError of the SPI variants):
  no `_handle` field changes.
* `uninitOk` — `ProtocolHandle.uninit` on a populated protocol handle
  with native success: `_stream_handle._handle` is re-populated,
  `self._handle = None`.
* `uninitFail` — `uninitialize` raising (empty guard or native
  failure): no field changes.
* `closeStream` — `GenericHandle.close` completing: `_handle = None`
  (a no-op when already empty).
* `closeStreamFail` — `close_handle` raising: no field changes.
* `closeCapOk` — `ProtocolHandle.close` completing: the handle moves
  through the stream object and is closed there; both end empty.
* `closeCapStreamFail` — `ProtocolHandle.close` whose final stream
  close raises: the protocol handle ends empty, the stream object ends
  populated.
* `closeCapFail` — `ProtocolHandle.close` whose uninitialize step
  raises: no field changes. -/
inductive Step : World → World → Prop
  | initOk (w : World) (hs : w.stream = true) :
      Step w ⟨false, w.caps ++ [true]⟩
  | initFail (w : World) : Step w w
  | uninitOk (w : World) (i : Nat) (hi : i < w.caps.length)
      (hc : w.caps.get ⟨i, hi⟩ = true) :
      Step w ⟨true, w.caps.set i false⟩
  | uninitFail (w : World) : Step w w
  | closeStream (w : World) : Step w ⟨false, w.caps⟩
  | closeStreamFail (w : World) : Step w w
  | closeCapOk (w : World) (i : Nat) (hi : i < w.caps.length)
      (hc : w.caps.get ⟨i, hi⟩ = true) :
      Step w ⟨false, w.caps.set i false⟩
  | closeCapStreamFail (w : World) (i : Nat) (hi : i < w.caps.length)
      (hc : w.caps.get ⟨i, hi⟩ = true) :
      Step w ⟨true, w.caps.set i false⟩
  | closeCapFail (w : World) : Step w w

/-- Worlds reachable from the state right after mode resolution: one
stream-mode object owning the raw handle, no protocol handle yet. -/
inductive Reach : World → Prop
  | start : Reach ⟨true, []⟩
  | step {w w2 : World} : Reach w → Step w w2 → Reach w2

/-- Number of in-memory objects currently holding a non-empty resource
field. -/
def liveCount (w : World) : Nat :=
  (if w.stream then 1 else 0) + w.caps.count true

theorem count_set_false (l : List Bool) :
    ∀ (i : Nat) (hi : i < l.length), l.get ⟨i, hi⟩ = true →
      (l.set i false).count true + 1 = l.count true := by
  induction l with
  | nil => intro i hi; simp at hi
  | cons a t ih =>
    intro i hi hget
    cases i with
    | zero =>
      simp only [List.get] at hget
      subst hget
      simp [List.count_cons]
    | succ n =>
      simp only [List.get] at hget
      have h2 := ih n (Nat.lt_of_succ_lt_succ hi) hget
      simp only [List.set, List.count_cons]
      omega

/-- Claim C2 (counterexample): calling `init_single_spi_master` on a
`ProtocolStream` whose resource field is already empty raises
`Ft4222Exception` with status `INVALID_HANDLE` (stream.py lines 85-86),
which is a different error code than `DEVICE_NOT_OPENED`. -/
theorem C2_counterexample :
    init_single_spi_master ⟨.dataStream, none⟩ .ok =
      (⟨.dataStream, none⟩, .error (.ft4222Exception .invalidHandle)) ∧
    Ft4222Status.invalidHandle ≠ Ft4222Status.deviceNotOpened :=
  ⟨rfl, by decide⟩

/-- Claim C2 (amended): on an object whose resource field is already
empty, the stream `init_*` methods raise `Ft4222Exception` with status
`INVALID_HANDLE`, while `uninitialize`, the protocol operations
(`Gpio.read`) and the common guarded accessors (`set_clock`) raise
`Ft4222Exception` with status `DEVICE_NOT_OPENED`; none is a silent
no-op or a crash. -/
theorem C2_one_shot_consumption_amended :
    (∀ (s : StreamHandle) (n : Ft4222Status), s.handle = none →
      init_single_spi_master s n = (s, .error (.ft4222Exception .invalidHandle)) ∧
      init_gpio s n = (s, .error (.ft4222Exception .invalidHandle)) ∧
      StreamHandle.set_clock s n = (s, .error (.ft4222Exception .deviceNotOpened))) ∧
    (∀ (c : ProtocolHandle) (n : Ft4222Status) (b : Bool), c.handle = none →
      ProtocolHandle.uninit c n = (c, .error (.ft4222Exception .deviceNotOpened)) ∧
      Gpio.read c n b = (c, .error (.ft4222Exception .deviceNotOpened))) := by
  constructor
  · rintro ⟨t, hd⟩ n h
    change hd = none at h
    subst h
    exact ⟨rfl, rfl, rfl⟩
  · rintro ⟨hd, sh⟩ n b h
    change hd = none at h
    subst h
    exact ⟨rfl, rfl⟩

/-- Claim C2 (witness for the amended theorem), at a spent
`ProtocolStream` and a spent `Gpio` protocol handle. -/
theorem C2_one_shot_consumption_amended_witness :
    ((⟨.dataStream, none⟩ : StreamHandle).handle = none ∧
      init_gpio ⟨.dataStream, none⟩ .ok =
        (⟨.dataStream, none⟩, .error (.ft4222Exception .invalidHandle))) ∧
    ((⟨none, ⟨.gpio, none⟩⟩ : ProtocolHandle).handle = none ∧
      Gpio.read ⟨none, ⟨.gpio, none⟩⟩ .ok true =
        (⟨none, ⟨.gpio, none⟩⟩, .error (.ft4222Exception .deviceNotOpened))) :=
  ⟨⟨rfl, (C2_one_shot_consumption_amended.1 ⟨.dataStream, none⟩ .ok rfl).2.1⟩,
   ⟨rfl, (C2_one_shot_consumption_amended.2 ⟨none, ⟨.gpio, none⟩⟩ .ok true rfl).2⟩⟩

/-- Claim C5 (counterexample): a live `GpioStream` consumed by
`init_gpio` (its `_handle` becomes `None`) is made Live again by
`uninitialize()` on the `Gpio` capability carved from it: the returned
stream object is the same origin object with its `_handle`
re-populated (handle.py lines 347-350). -/
theorem C5_counterexample :
    init_gpio ⟨.gpio, some 7⟩ .ok =
      (⟨.gpio, none⟩, .ok ⟨some 7, ⟨.gpio, none⟩⟩) ∧
    ProtocolHandle.uninit ⟨some 7, ⟨.gpio, none⟩⟩ .ok =
      (⟨none, ⟨.gpio, some 7⟩⟩, .ok ⟨.gpio, some 7⟩) ∧
    (⟨.gpio, none⟩ : StreamHandle).handle = none ∧
    (⟨.gpio, some 7⟩ : StreamHandle).handle ≠ none :=
  ⟨rfl, rfl, rfl, by simp⟩

/-- Claim C5 (amended): `Spent` is terminal for protocol-handle
(capability) objects — no lifecycle transition re-populates an emptied
protocol handle's resource field — while a stream-mode object emptied
by `init_*` is re-populated when `uninitialize`/`close` is called on
the capability created from it. -/
theorem C5_spent_terminal_amended {w w2 : World} (hstep : Step w w2)
    (i : Nat) (hi : i < w.caps.length) (hi2 : i < w2.caps.length)
    (hc : w.caps.get ⟨i, hi⟩ = false) : w2.caps.get ⟨i, hi2⟩ = false := by
  cases hstep with
  | initOk hs =>
    simp only [List.get_eq_getElem] at hc ⊢
    rw [List.getElem_append_left hi]
    exact hc
  | initFail => exact hc
  | uninitOk j hj hcj =>
    simp only [List.get_eq_getElem] at hc hcj ⊢
    by_cases hij : i = j
    · subst hij
      simp [List.getElem_set]
    · rw [List.getElem_set_ne (fun hne => hij hne.symm)]
      exact hc
  | uninitFail => exact hc
  | closeStream => exact hc
  | closeStreamFail => exact hc
  | closeCapOk j hj hcj =>
    simp only [List.get_eq_getElem] at hc hcj ⊢
    by_cases hij : i = j
    · subst hij
      simp [List.getElem_set]
    · rw [List.getElem_set_ne (fun hne => hij hne.symm)]
      exact hc
  | closeCapStreamFail j hj hcj =>
    simp only [List.get_eq_getElem] at hc hcj ⊢
    by_cases hij : i = j
    · subst hij
      simp [List.getElem_set]
    · rw [List.getElem_set_ne (fun hne => hij hne.symm)]
      exact hc
  | closeCapFail => exact hc

/-- Claim C5 (witness for the amended theorem), at the world with a
spent protocol handle and the stream-close transition. -/
theorem C5_spent_terminal_amended_witness :
    Step ⟨true, [false]⟩ ⟨false, [false]⟩ ∧
    (⟨true, [false]⟩ : World).caps.get ⟨0, by decide⟩ = false ∧
    (⟨false, [false]⟩ : World).caps.get ⟨0, by decide⟩ = false :=
  ⟨Step.closeStream ⟨true, [false]⟩, rfl,
   C5_spent_terminal_amended (Step.closeStream ⟨true, [false]⟩) 0
     (by decide) (by decide) rfl⟩

/-- Claim C6 (counterexample): `close()` called a second time on a
protocol-handle (capability) object raises `Ft4222Exception` with
status `DEVICE_NOT_OPENED`, because `GenericProtocolHandle.close`
delegates to `uninitialize` (handle.py line 332). -/
theorem C6_counterexample :
    ProtocolHandle.close ⟨some 5, ⟨.gpio, none⟩⟩ .ok .ok =
      (⟨none, ⟨.gpio, none⟩⟩, .ok ()) ∧
    ProtocolHandle.close ⟨none, ⟨.gpio, none⟩⟩ .ok .ok =
      (⟨none, ⟨.gpio, none⟩⟩, .error (.ft4222Exception .deviceNotOpened)) :=
  ⟨rfl, rfl⟩

/-- Claim C6 (amended): `close()` is idempotent on stream-mode handle
objects — a close on an emptied object is a no-op, and a close that
returned without raising leaves the object emptied — while on a
protocol-handle (capability) object a second `close()` raises
`Ft4222Exception(DEVICE_NOT_OPENED)`. -/
theorem C6_idempotent_close_amended :
    (∀ (s : StreamHandle) (n : FtStatus), s.handle = none →
      StreamHandle.close s n = (s, .ok ())) ∧
    (∀ (s : StreamHandle) (n : FtStatus),
      (StreamHandle.close s n).2 = .ok () →
      (StreamHandle.close s n).1.handle = none) ∧
    (∀ (c : ProtocolHandle) (nu : Ft4222Status) (nc : FtStatus),
      c.handle = none →
      ProtocolHandle.close c nu nc =
        (c, .error (.ft4222Exception .deviceNotOpened))) := by
  refine ⟨?_, ?_, ?_⟩
  · rintro ⟨t, hd⟩ n h
    change hd = none at h
    subst h
    rfl
  · rintro ⟨t, hd⟩ n h
    cases hd with
    | none => simp [StreamHandle.close]
    | some v =>
      simp only [StreamHandle.close] at h ⊢
      cases hch : close_handle n with
      | ok u => simp [hch]
      | error e => rw [hch] at h; simp at h
  · rintro ⟨hd, sh⟩ nu nc h
    change hd = none at h
    subst h
    rfl

/-- Claim C6 (witness for the amended theorem), at a spent stream
handle, a live stream handle with a successful native close, and a
spent protocol handle. -/
theorem C6_idempotent_close_amended_witness :
    ((⟨.gpio, none⟩ : StreamHandle).handle = none ∧
      StreamHandle.close ⟨.gpio, none⟩ .ok = (⟨.gpio, none⟩, .ok ())) ∧
    ((StreamHandle.close ⟨.gpio, some 4⟩ .ok).2 = .ok () ∧
      (StreamHandle.close ⟨.gpio, some 4⟩ .ok).1.handle = none) ∧
    ((⟨none, ⟨.gpio, none⟩⟩ : ProtocolHandle).handle = none ∧
      ProtocolHandle.close ⟨none, ⟨.gpio, none⟩⟩ .ok .ok =
        (⟨none, ⟨.gpio, none⟩⟩, .error (.ft4222Exception .deviceNotOpened))) :=
  ⟨⟨rfl, C6_idempotent_close_amended.1 ⟨.gpio, none⟩ .ok rfl⟩,
   ⟨rfl, C6_idempotent_close_amended.2.1 ⟨.gpio, some 4⟩ .ok rfl⟩,
   ⟨rfl, C6_idempotent_close_amended.2.2 ⟨none, ⟨.gpio, none⟩⟩ .ok .ok rfl⟩⟩

/-- Claim C7 (code defect at the failing input, and the part of the
property the code does satisfy): on a live stream handle, every
embedded `init_*` leaves the resource field populated when it raises,
and empties it only on native success; `init_gpio` raises the mapped
`Ft4222Exception(status)` on native failure, but the SPI-master
`init_*` raises `AttributeError` for every native outcome, because
`spi_master.init` returns the legacy wrapper result type which has no
`unwrap` method. -/
theorem C7_init_failure_atomicity :
    (∀ (s : StreamHandle) (h : FtHandle) (n : Ft4222Status),
      s.handle = some h →
      init_single_spi_master s n = (s, .error .attributeError)) ∧
    (∀ (s : StreamHandle) (h : FtHandle) (n : Ft4222Status),
      s.handle = some h → n ≠ .ok →
      init_gpio s n = (s, .error (.ft4222Exception n))) ∧
    (∀ (s : StreamHandle) (h : FtHandle), s.handle = some h →
      (init_gpio s .ok).1.handle = none) := by
  refine ⟨?_, ?_, ?_⟩
  · rintro ⟨t, hd⟩ h n hs
    change hd = some h at hs
    subst hs
    by_cases hn : n = .ok <;>
      simp [init_single_spi_master, spi_master_init, WResult.unwrapFt4222, hn]
  · rintro ⟨t, hd⟩ h n hs hn
    change hd = some h at hs
    subst hs
    simp [init_gpio, gpio_init, Result.unwrapFt4222, hn]
  · rintro ⟨t, hd⟩ h hs
    change hd = some h at hs
    subst hs
    simp [init_gpio, gpio_init, Result.unwrapFt4222]

/-- Claim C7 (witness), at a live stream handle with the native SPI
init failing with DEVICE_NOT_SUPPORTED, and the GPIO init once failing
and once succeeding. -/
theorem C7_init_failure_atomicity_witness :
    ((⟨.dataStream, some 3⟩ : StreamHandle).handle = some 3 ∧
      init_single_spi_master ⟨.dataStream, some 3⟩ .deviceNotSupported =
        (⟨.dataStream, some 3⟩, .error .attributeError)) ∧
    (Ft4222Status.deviceNotSupported ≠ Ft4222Status.ok ∧
      init_gpio ⟨.gpio, some 3⟩ .deviceNotSupported =
        (⟨.gpio, some 3⟩, .error (.ft4222Exception .deviceNotSupported))) ∧
    (init_gpio ⟨.gpio, some 3⟩ .ok).1.handle = none :=
  ⟨⟨rfl, C7_init_failure_atomicity.1 ⟨.dataStream, some 3⟩ 3 .deviceNotSupported rfl⟩,
   ⟨by decide, C7_init_failure_atomicity.2.1 ⟨.gpio, some 3⟩ 3 .deviceNotSupported rfl
      (by decide)⟩,
   C7_init_failure_atomicity.2.2 ⟨.gpio, some 3⟩ 3 rfl⟩

/-- Claim C10 (counterexample to the universal part): after a
successful `reset_device` on a live `ProtocolStream`, the guarded
`init_*` methods fail with `INVALID_HANDLE`, not `DEVICE_NOT_OPENED`. -/
theorem C10_counterexample :
    StreamHandle.reset_device ⟨.dataStream, some 3⟩ .ok .ok =
      (⟨.dataStream, none⟩, .ok ()) ∧
    init_single_spi_master ⟨.dataStream, none⟩ .deviceNotSupported =
      (⟨.dataStream, none⟩, .error (.ft4222Exception .invalidHandle)) ∧
    Ft4222Status.invalidHandle ≠ Ft4222Status.deviceNotOpened :=
  ⟨rfl, rfl, by decide⟩

/-- Claim C10 (amended): a successful `reset_device()` or
`chip_reset()` on a live handle object also closes the object — the
resource field becomes empty — so every subsequent operation on that
object fails: the common guarded operations (`set_clock`,
`reset_device`, `chip_reset`) with `DEVICE_NOT_OPENED`, the stream
`init_*` methods with `INVALID_HANDLE`. -/
theorem C10_reset_consumes_amended :
    (∀ (s : StreamHandle) (h : FtHandle), s.handle = some h →
      StreamHandle.reset_device s .ok .ok = (⟨s.tag, none⟩, .ok ()) ∧
      StreamHandle.chip_reset s .ok .ok = (⟨s.tag, none⟩, .ok ())) ∧
    (∀ (s : StreamHandle) (n : Ft4222Status) (m m2 : FtStatus),
      s.handle = none →
      StreamHandle.set_clock s n = (s, .error (.ft4222Exception .deviceNotOpened)) ∧
      StreamHandle.reset_device s m m2 =
        (s, .error (.ft4222Exception .deviceNotOpened)) ∧
      StreamHandle.chip_reset s n m =
        (s, .error (.ft4222Exception .deviceNotOpened)) ∧
      init_single_spi_master s n =
        (s, .error (.ft4222Exception .invalidHandle))) := by
  constructor
  · rintro ⟨t, hd⟩ h hs
    change hd = some h at hs
    subst hs
    exact ⟨rfl, rfl⟩
  · rintro ⟨t, hd⟩ n m m2 hs
    change hd = none at hs
    subst hs
    exact ⟨rfl, rfl, rfl, rfl⟩

/-- Claim C10 (witness), at a live `ProtocolStream` and at the spent
object it leaves behind. -/
theorem C10_reset_consumes_amended_witness :
    ((⟨.dataStream, some 9⟩ : StreamHandle).handle = some 9 ∧
      StreamHandle.reset_device ⟨.dataStream, some 9⟩ .ok .ok =
        (⟨.dataStream, none⟩, .ok ())) ∧
    ((⟨.dataStream, none⟩ : StreamHandle).handle = none ∧
      StreamHandle.set_clock ⟨.dataStream, none⟩ .ok =
        (⟨.dataStream, none⟩, .error (.ft4222Exception .deviceNotOpened))) :=
  ⟨⟨rfl, (C10_reset_consumes_amended.1 ⟨.dataStream, some 9⟩ 9 rfl).1⟩,
   ⟨rfl, (C10_reset_consumes_amended.2 ⟨.dataStream, none⟩ .ok .ok .ok rfl).1⟩⟩

/-- Claim C3: the static table `_MODE_MAP` does contain exactly the
seven documented entries, but `_get_mode_handle` raises
`AttributeError` even for a successful info query with a documented
pair, because it reads `description`/`dev_type` off the `Result`
wrapper returned by `get_device_info` instead of off the
`ShortDeviceInfo` payload. -/
theorem C3_mode_table :
    MODE_MAP ("FT4222 A", .dev4222h0) = some .protocolStream ∧
    MODE_MAP ("FT4222 B", .dev4222h0) = some .gpioStream ∧
    MODE_MAP ("FT4222 A", .dev4222h12) = some .spiStream ∧
    MODE_MAP ("FT4222 B", .dev4222h12) = some .spiStream ∧
    MODE_MAP ("FT4222 C", .dev4222h12) = some .spiStream ∧
    MODE_MAP ("FT4222 D", .dev4222h12) = some .disambiguate ∧
    MODE_MAP ("FT4222", .dev4222h3) = some .protocolStream ∧
    MODE_MAP ("FT4222 A", .devBm) = none ∧
    get_mode_handle (.ok ⟨.dev4222h0, 0, "x", "FT4222 A"⟩) 5 .ok .ok =
      .error .attributeError :=
  ⟨by decide, by decide, by decide, by decide, by decide, by decide, by decide,
   by decide, rfl⟩

/-- Claim C4: when the GPIO probe-initialization succeeds,
`_disambiguate_modes` still returns a `SpiStream` wrapping the (now
GPIO-initialized) handle, and never calls the native uninitialize:
`isinstance(result, Ok)` tests against `koda.Ok` while the value is a
`pyft4222.result.Ok`, so the GpioStream branch is unreachable. -/
theorem C4_disambiguation :
    gpio_init 5 DEFAULT_GPIO_DIRS .ok = .ok 5 ∧
    (∀ (u : Ft4222Status),
      disambiguate_modes 5 .ok u = (.ok (.spiStream 5), false)) :=
  ⟨rfl, fun _ => rfl⟩

/-- Claim C8: when the short-device-info query fails, resolution does
not return `Err(INVALID_HANDLE)`: the `dev_details is not None` test is
true for the `Err` object as well, and the subsequent attribute lookup
raises `AttributeError`. -/
theorem C8_invalid_handle_branch :
    result_is_not_none (.err .invalidHandle) = true ∧
    get_mode_handle (.err .invalidHandle) 5 .ok .ok = .error .attributeError ∧
    get_mode_handle (.err .invalidHandle) 5 .ok .ok ≠
      .ok (.err .invalidHandle) :=
  ⟨rfl, rfl, fun h => Except.noConfusion h⟩

/-- Claim C9: `open_by_idx(-1)` and `open_by_idx(2^31)` return
`Err(INVALID_IDX)` without calling the native open, while every index
in `[0, 2^31)` proceeds to the native open call. -/
theorem C9_index_boundary :
    (∀ (n : Result FtHandle FtStatus) (d : Result ShortDeviceInfo FtStatus)
      (p u : Ft4222Status),
      open_by_idx (-1) n d p u = (.ok (.err .invalidIdx), false) ∧
      open_by_idx (2 ^ 31) n d p u = (.ok (.err .invalidIdx), false)) ∧
    (∀ (i : Int), 0 ≤ i → i < 2 ^ 31 →
      ∀ (n : Result FtHandle FtStatus) (d : Result ShortDeviceInfo FtStatus)
        (p u : Ft4222Status),
      (open_by_idx i n d p u).2 = true) := by
  constructor
  · intro n d p u
    constructor
    · have hv : validate_dev_idx (-1) = false := by decide
      simp [open_by_idx, hv]
    · have hv : validate_dev_idx 2147483648 = false := by decide
      simp [open_by_idx, hv]
  · intro i h1 h2 n d p u
    have h2b : i < 2147483648 := by simpa using h2
    have hv : validate_dev_idx i = true := by
      simp [validate_dev_idx, h1, h2b]
    cases n with
    | ok v => simp [open_by_idx, hv, isinstance_koda_ok]
    | err e => simp [open_by_idx, hv, isinstance_koda_ok]

/-- Claim C9 (witness), at index 0. -/
theorem C9_index_boundary_witness :
    (0 : Int) ≤ 0 ∧ (0 : Int) < 2 ^ 31 ∧
    (open_by_idx 0 (.ok 5) (.err .invalidHandle) .ok .ok).2 = true :=
  ⟨by decide, by decide,
   C9_index_boundary.2 0 (by decide) (by decide) (.ok 5)
     (.err .invalidHandle) .ok .ok⟩

/-- Claim C1: ownership uniqueness — in every world reachable by the
lifecycle transitions (init, uninitialize, close, on either handle
kind, succeeding or raising), at most one in-memory object holds a
non-empty resource field; every transferring transition empties the
source object's field in the same step that populates the
destination's. -/
theorem C1_ownership_uniqueness (w : World) (hw : Reach w) :
    liveCount w ≤ 1 := by
  induction hw with
  | start => simp [liveCount]
  | step hr hstep ih =>
    rename_i w1 w2
    cases hstep with
    | initOk hs =>
      have ih2 : (if w1.stream then 1 else 0) + w1.caps.count true ≤ 1 := ih
      rw [hs] at ih2
      simp only [if_true] at ih2
      have hcnt : w1.caps.count true = 0 := by omega
      show 0 + (w1.caps ++ [true]).count true ≤ 1
      rw [List.count_append, hcnt]
      simp
    | initFail => exact ih
    | uninitOk j hj hcj =>
      have hcnt := count_set_false w1.caps j hj hcj
      have ih2 : (if w1.stream then 1 else 0) + w1.caps.count true ≤ 1 := ih
      have hle : w1.caps.count true ≤ 1 := le_trans (Nat.le_add_left _ _) ih2
      show 1 + (w1.caps.set j false).count true ≤ 1
      omega
    | uninitFail => exact ih
    | closeStream =>
      have ih2 : (if w1.stream then 1 else 0) + w1.caps.count true ≤ 1 := ih
      have hle : w1.caps.count true ≤ 1 := le_trans (Nat.le_add_left _ _) ih2
      show 0 + w1.caps.count true ≤ 1
      omega
    | closeStreamFail => exact ih
    | closeCapOk j hj hcj =>
      have hcnt := count_set_false w1.caps j hj hcj
      have ih2 : (if w1.stream then 1 else 0) + w1.caps.count true ≤ 1 := ih
      have hle : w1.caps.count true ≤ 1 := le_trans (Nat.le_add_left _ _) ih2
      show 0 + (w1.caps.set j false).count true ≤ 1
      omega
    | closeCapStreamFail j hj hcj =>
      have hcnt := count_set_false w1.caps j hj hcj
      have ih2 : (if w1.stream then 1 else 0) + w1.caps.count true ≤ 1 := ih
      have hle : w1.caps.count true ≤ 1 := le_trans (Nat.le_add_left _ _) ih2
      show 1 + (w1.caps.set j false).count true ≤ 1
      omega
    | closeCapFail => exact ih

/-- Claim C1 (witness), at the world reached by one successful
`init_gpio` from the post-resolution start world. -/
theorem C1_ownership_uniqueness_witness :
    Reach ⟨false, [true]⟩ ∧ liveCount ⟨false, [true]⟩ ≤ 1 :=
  have hr : Reach ⟨false, [true]⟩ :=
    Reach.step Reach.start (Step.initOk ⟨true, []⟩ rfl)
  ⟨hr, C1_ownership_uniqueness ⟨false, [true]⟩ hr⟩
